import Mathlib

/-!
Verification of the UDP transport interface (src/interface/UDPInterface.c) of
the cjdns mesh-networking daemon, together with spec-level models of the
session registry and the replay window, whose implementations are not part of
the source tree under verification (only their tests and callers are).

Byte buffers are modelled as `List Nat`; machine-level memcpy/memset become
`List.take`, `List.append` and `List.replicate`.  External OS calls
(recvfrom, sendto, socket, bind, evutil_parse_sockaddr_port) are modelled by
explicit parameters carrying their observable results.
-/

namespace Cjdns

/-- sizeof(struct sockaddr_in) on the POSIX platforms targeted by the code:
16 bytes. -/
def sizeof_sockaddr_in : Nat := 16

/-- sizeof(struct sockaddr): 16 bytes; used by UDPInterface_new for the
addrLen of an unbound interface. -/
def sizeof_sockaddr : Nat := 16

/-- AF_INET address-family constant (2 on the targeted platforms). -/
def AF_INET : Nat := 2

/-- InterfaceController_KEY_SIZE.  The header net/InterfaceController.h is not
in the source tree; the value 8 is stated by the comment in UDPInterface_new:
"This is because the key size is only 8 bytes." -/
def InterfaceController_KEY_SIZE : Nat := 8

/-- The EFFECTIVE_KEY_SIZE macro of UDPInterface.c:
`(InterfaceController_KEY_SIZE > sizeof(struct sockaddr_in)) ?
sizeof(struct sockaddr_in) : InterfaceController_KEY_SIZE`. -/
def EFFECTIVE_KEY_SIZE : Nat :=
  if InterfaceController_KEY_SIZE > sizeof_sockaddr_in
  then sizeof_sockaddr_in else InterfaceController_KEY_SIZE

/-- sockaddrForKey of UDPInterface.c: builds the sockaddr_in bytes from a key.
If EFFECTIVE_KEY_SIZE < sizeof(struct sockaddr_in) the sockaddr is zeroed
first, then the first EFFECTIVE_KEY_SIZE bytes of the key are copied over its
start; when EFFECTIVE_KEY_SIZE equals sizeof(struct sockaddr_in) the memcpy
covers the whole sockaddr, matching the absent memset. -/
def sockaddrForKey (key : List Nat) : List Nat :=
  key.take EFFECTIVE_KEY_SIZE ++
    List.replicate (sizeof_sockaddr_in - EFFECTIVE_KEY_SIZE) 0

/-- keyForSockaddr of UDPInterface.c: builds the KEY_SIZE-byte key from a
sockaddr.  If EFFECTIVE_KEY_SIZE < InterfaceController_KEY_SIZE the key is
zeroed first, then the first EFFECTIVE_KEY_SIZE bytes of the sockaddr are
copied over its start. -/
def keyForSockaddr (sockaddr : List Nat) : List Nat :=
  sockaddr.take EFFECTIVE_KEY_SIZE ++
    List.replicate (InterfaceController_KEY_SIZE - EFFECTIVE_KEY_SIZE) 0

/-- Observable result of the recvfrom call in handleEvent: the return value
`rc`, the bytes and reported length of the source address, and the payload
bytes written into the buffer (meaningful when `rc` is nonnegative, in which
case `payload.length = rc.toNat`). -/
structure RecvEvent where
  rc : Int
  srcAddr : List Nat
  srcAddrLen : Nat
  payload : List Nat

/-- handleEvent of UDPInterface.c, from the recvfrom call onward: drops the
datagram (returns none) when the reported source-address length differs from
the interface addrLen or recvfrom failed; otherwise delivers to
receiveMessage a message whose first InterfaceController_KEY_SIZE bytes are
keyForSockaddr of the source address and whose remaining bytes are the
received payload. -/
def handleEvent (ctxAddrLen : Nat) (e : RecvEvent) : Option (List Nat) :=
  if e.srcAddrLen ≠ ctxAddrLen then none
  else if e.rc < 0 then none
  else some (keyForSockaddr e.srcAddr ++ e.payload)

/-- The buffer length handleEvent passes to recvfrom:
`message.length - InterfaceController_KEY_SIZE` where message.length starts
as UDPInterface_MAX_PACKET_SIZE (the header defining that constant is not in
the source tree, so it is kept as a parameter). -/
def recvfromBufLen (maxPacketSize : Nat) : Nat :=
  maxPacketSize - InterfaceController_KEY_SIZE

/-- The errno values distinguished by sendMessage's switch. -/
inductive Errno where
  | EMSGSIZE
  | ENOBUFS
  | EAGAIN
  | other
deriving DecidableEq

/-- Return value of sendMessage.  `zero` is the literal `return 0`;
the two error constructors stand for the constants Error_OVERSIZE_MESSAGE and
Error_LINK_LIMIT_EXCEEDED of wire/Error.h (not in the source tree), which are
distinct from each other and from 0. -/
inductive SendRet where
  | zero
  | Error_OVERSIZE_MESSAGE
  | Error_LINK_LIMIT_EXCEEDED
deriving DecidableEq

/-- What sendMessage does, observably: the return code, the sockaddr bytes
handed to sendto, the payload bytes handed to sendto, and the length argument
of sendto. -/
structure SendOutcome where
  ret : SendRet
  dest : List Nat
  sentBytes : List Nat
  sentLen : Nat
deriving DecidableEq

/-- sendMessage of UDPInterface.c.  `msg` is the message byte buffer
(message->length = msg.length).  The sockaddr `sin` is built by
sockaddrForKey from message->bytes and then the first
InterfaceController_KEY_SIZE bytes of message->bytes are copied over its
start (the second, redundant Bits_memcpyConst on line 72).  Message_shift by
-InterfaceController_KEY_SIZE drops the key prefix.  `sendtoNeg` is true when
sendto returns a negative value, in which case `errno` selects the return
code; otherwise, and for every errno outside the switch's cases, the function
returns 0. -/
def sendMessage (msg : List Nat) (sendtoNeg : Bool) (errno : Errno) :
    SendOutcome :=
  let sin0 := sockaddrForKey msg
  let sin := msg.take InterfaceController_KEY_SIZE ++
    sin0.drop InterfaceController_KEY_SIZE
  let shifted := msg.drop InterfaceController_KEY_SIZE
  let ret := if sendtoNeg then
      match errno with
      | Errno.EMSGSIZE => SendRet.Error_OVERSIZE_MESSAGE
      | Errno.ENOBUFS => SendRet.Error_LINK_LIMIT_EXCEEDED
      | Errno.EAGAIN => SendRet.Error_LINK_LIMIT_EXCEEDED
      | Errno.other => SendRet.zero
    else SendRet.zero
  ⟨ret, sin, shifted, shifted.length⟩

/-- Result of InterfaceController's insertEndpoint as switched on by
UDPInterface_beginConnection: 0, the two named constants of
net/InterfaceController.h (header not in the source tree), or anything
else. -/
inductive InsertRet where
  | success
  | BAD_KEY
  | OUT_OF_SPACE
  | other
deriving DecidableEq

/-- Return value of UDPInterface_beginConnection.  `zero` is the literal
`return 0`; the other constructors stand for the distinct
UDPInterface_beginConnection_* constants of interface/UDPInterface.h (header
not in the source tree). -/
inductive BeginConnRet where
  | zero
  | BAD_ADDRESS
  | ADDRESS_MISMATCH
  | BAD_KEY
  | OUT_OF_SPACE
  | UNKNOWN_ERROR
deriving DecidableEq

/-- UDPInterface_beginConnection of UDPInterface.c.  `parsed` is the
observable result of evutil_parse_sockaddr_port: none on parse failure,
otherwise the sockaddr bytes and the parsed length.  `insertEndpoint` is the
interface controller's insertEndpoint, abstracted to the key it is given.
The second component of the result is `some key` exactly when insertEndpoint
was invoked, carrying the key passed to it. -/
def UDPInterface_beginConnection (parsed : Option (List Nat × Nat))
    (ifaceAddrLen : Nat) (insertEndpoint : List Nat → InsertRet) :
    BeginConnRet × Option (List Nat) :=
  match parsed with
  | none => (BeginConnRet.BAD_ADDRESS, none)
  | some (addr, len) =>
    if len ≠ ifaceAddrLen then (BeginConnRet.ADDRESS_MISMATCH, none)
    else
      let key := keyForSockaddr addr
      ((match insertEndpoint key with
        | InsertRet.success => BeginConnRet.zero
        | InsertRet.BAD_KEY => BeginConnRet.BAD_KEY
        | InsertRet.OUT_OF_SPACE => BeginConnRet.OUT_OF_SPACE
        | InsertRet.other => BeginConnRet.UNKNOWN_ERROR), some key)

/-- The Except_raise identifiers of UDPInterface_new.  GETSOCKNAME stands for
the anonymous `-1` code raised when getsockname fails. -/
inductive NewErr where
  | PARSE_ADDRESS_FAILED
  | PROTOCOL_NOT_SUPPORTED
  | BIND_FAILED
  | GETSOCKNAME_FAILED
  | FAILED_CREATING_EVENT
deriving DecidableEq

/-- UDPInterface_new of UDPInterface.c, at the granularity of its control
flow.  `bindAddr` is none for a NULL bind address; otherwise it carries the
observable result of evutil_parse_sockaddr_port (none on parse failure, else
the parsed family and length).  The Booleans are the failure outcomes of
socket(), bind(), getsockname() and event creation.  Except_raise does not
return, so each raise short-circuits.  On success the result carries the
address family and addrLen of the constructed interface. -/
def UDPInterface_new (bindAddr : Option (Option (Nat × Nat)))
    (socketFail bindFail getsocknameFail eventFail : Bool) :
    Except NewErr (Nat × Nat) :=
  match bindAddr with
  | some parsed =>
    match parsed with
    | none => Except.error NewErr.PARSE_ADDRESS_FAILED
    | some (fam, len) =>
      if fam ≠ AF_INET ∨ len ≠ sizeof_sockaddr_in then
        Except.error NewErr.PROTOCOL_NOT_SUPPORTED
      else if socketFail then Except.error NewErr.BIND_FAILED
      else if bindFail then Except.error NewErr.BIND_FAILED
      else if getsocknameFail then Except.error NewErr.GETSOCKNAME_FAILED
      else if eventFail then Except.error NewErr.FAILED_CREATING_EVENT
      else Except.ok (fam, len)
  | none =>
    if socketFail then Except.error NewErr.BIND_FAILED
    else if getsocknameFail then Except.error NewErr.GETSOCKNAME_FAILED
    else if eventFail then Except.error NewErr.FAILED_CREATING_EVENT
    else Except.ok (AF_INET, sizeof_sockaddr)

/-- Modelled from the spec: a Session of the session engine (§3).  The
session state machine's implementation is not in the source tree; only the
fields the registry operations consult are modelled.  state 0 is
UNAUTHENTICATED. -/
structure Session where
  state : Nat
  lastPacketTime : Nat
deriving DecidableEq

/-- Modelled from the spec: the Session Registry (§4.5) "maps a peer key ...
to a Session", as an association list from peer keys to sessions. -/
abbrev Registry := List (Nat × Session)

/-- Modelled from the spec: `lookupOrCreate(peerKey) -> Session` of §4.5,
"creates UNAUTHENTICATED session if absent".  Returns the session and the
updated registry. -/
def lookupOrCreate (reg : Registry) (k : Nat) : Session × Registry :=
  match reg.lookup k with
  | some s => (s, reg)
  | none => ((⟨0, 0⟩ : Session), (k, (⟨0, 0⟩ : Session)) :: reg)

/-- Modelled from the spec: `removeAndWipe(peerKey)` of §4.5, "zeroes key
material, removes entry". -/
def removeAndWipe (reg : Registry) (k : Nat) : Registry :=
  reg.filter (fun p => p.1 != k)

/-- Modelled from the spec: the periodic sweep of §4.5, which "evicts
sessions with no traffic for longer than an inactivity threshold". -/
def sweep (reg : Registry) (now threshold : Nat) : Registry :=
  reg.filter (fun p => decide (now - p.2.lastPacketTime ≤ threshold))

/-- The exactly-one-session invariant: no peer key owns two registry
entries. -/
def oneSessionPerKey (reg : Registry) : Prop :=
  (reg.map Prod.fst).Nodup

/-- Modelled from the spec: the Replay Window of §4.4, "tracking the highest
nonce observed (`top`)" and the set of seen nonces within the window
`[top - W + 1, top]`.  The bitmap is modelled as the list of in-window nonces
whose bit is set. -/
structure ReplayWindow where
  top : Nat
  seen : List Nat
deriving DecidableEq

/-- Modelled from the spec: a fresh replay window, nothing seen. -/
def rwInit : ReplayWindow := ⟨0, []⟩

/-- Modelled from the spec: the accept policy of §4.4.  Over the integers,
membership of the window `[top - W + 1, top]` is `n ≤ top ∧ top < n + W`, and
"older than the window's lower bound" is `n + W ≤ top`.
nonce > top: accept, shift the window forward (bits whose nonce falls out of
the new window are cleared), mark seen, update top.  Nonce in window with bit
unset: accept, set bit.  Bit set, or older than the lower bound: reject. -/
def rwCheck (W : Nat) (w : ReplayWindow) (n : Nat) : Bool × ReplayWindow :=
  if w.top < n then
    (true, ⟨n, n :: w.seen.filter (fun m => decide (n < m + W))⟩)
  else if w.top < n + W then
    if n ∈ w.seen then (false, w)
    else (true, ⟨w.top, n :: w.seen⟩)
  else
    (false, w)

/-- Well-formedness of a replay window: every seen nonce is at most top.
Holds for rwInit and is preserved by rwCheck. -/
def rwWF (w : ReplayWindow) : Prop :=
  ∀ m ∈ w.seen, m ≤ w.top

/-- A nonce the window can never accept again: its bit is set, or it has
fallen below the window's lower bound. -/
def rwDead (W : Nat) (w : ReplayWindow) (n : Nat) : Prop :=
  n ∈ w.seen ∨ n + W ≤ w.top

/-- The sub-sequence of nonces a replay window accepts from a presented
sequence, in order. -/
def rwTrace (W : Nat) : ReplayWindow → List Nat → List Nat
  | _, [] => []
  | w, n :: ns =>
    if (rwCheck W w n).1 then n :: rwTrace W (rwCheck W w n).2 ns
    else rwTrace W (rwCheck W w n).2 ns

/-- The replay-window state after presenting a sequence of nonces. -/
def rwRun (W : Nat) (w : ReplayWindow) (ns : List Nat) : ReplayWindow :=
  ns.foldl (fun w n => (rwCheck W w n).2) w

theorem keyForSockaddr_length (s : List Nat)
    (h : EFFECTIVE_KEY_SIZE ≤ s.length) :
    (keyForSockaddr s).length = InterfaceController_KEY_SIZE := by
  simp only [keyForSockaddr, List.length_append, List.length_take,
    List.length_replicate]
  have h2 : EFFECTIVE_KEY_SIZE ≤ InterfaceController_KEY_SIZE := by decide
  omega

/-- C8: for every IPv4 sockaddr_in, keyForSockaddr followed by sockaddrForKey
reproduces the first EFFECTIVE_KEY_SIZE bytes of the sockaddr and zeroes the
rest, so the key attached to an inbound packet addresses replies to the same
source address. -/
theorem sockaddrForKey_keyForSockaddr_roundtrip (s : List Nat)
    (h : s.length = sizeof_sockaddr_in) :
    sockaddrForKey (keyForSockaddr s) =
      s.take EFFECTIVE_KEY_SIZE ++
        List.replicate (sizeof_sockaddr_in - EFFECTIVE_KEY_SIZE) 0 := by
  simp [sockaddrForKey, keyForSockaddr, EFFECTIVE_KEY_SIZE,
    InterfaceController_KEY_SIZE, sizeof_sockaddr_in, List.take_take]

/-- Witness for C8 at a concrete 16-byte sockaddr. -/
theorem sockaddrForKey_keyForSockaddr_roundtrip_witness :
    (List.range 16).length = sizeof_sockaddr_in ∧
    sockaddrForKey (keyForSockaddr (List.range 16)) =
      (List.range 16).take EFFECTIVE_KEY_SIZE ++
        List.replicate (sizeof_sockaddr_in - EFFECTIVE_KEY_SIZE) 0 :=
  ⟨by decide, sockaddrForKey_keyForSockaddr_roundtrip (List.range 16) (by decide)⟩

/-- C4: handleEvent delivers nothing when recvfrom returns a negative count or
reports a source-address length different from the interface's addrLen. -/
theorem handleEvent_drops_malformed (ctxAddrLen : Nat) (e : RecvEvent)
    (h : e.srcAddrLen ≠ ctxAddrLen ∨ e.rc < 0) :
    handleEvent ctxAddrLen e = none := by
  unfold handleEvent
  rcases h with h | h
  · simp [h]
  · by_cases h2 : e.srcAddrLen = ctxAddrLen <;> simp [h, h2]

/-- Witness for C4: a failed recvfrom (rc = -1) is dropped. -/
theorem handleEvent_drops_malformed_witness :
    ((⟨-1, [], 16, []⟩ : RecvEvent).srcAddrLen ≠ 16 ∨
      (⟨-1, [], 16, []⟩ : RecvEvent).rc < 0) ∧
    handleEvent 16 ⟨-1, [], 16, []⟩ = none :=
  ⟨Or.inr (by decide),
   handleEvent_drops_malformed 16 ⟨-1, [], 16, []⟩ (Or.inr (by decide))⟩

/-- C2: an accepted inbound datagram of rc payload bytes is delivered as a
message of length rc + InterfaceController_KEY_SIZE whose first
InterfaceController_KEY_SIZE bytes are keyForSockaddr of the source address
and whose remaining bytes are the payload unchanged. -/
theorem handleEvent_delivers (ctxAddrLen : Nat) (e : RecvEvent)
    (hLen : e.srcAddrLen = ctxAddrLen) (hrc : 0 ≤ e.rc)
    (hp : e.payload.length = e.rc.toNat)
    (hs : e.srcAddr.length = sizeof_sockaddr_in) :
    ∃ m, handleEvent ctxAddrLen e = some m ∧
      m.length = e.rc.toNat + InterfaceController_KEY_SIZE ∧
      m.take InterfaceController_KEY_SIZE = keyForSockaddr e.srcAddr ∧
      m.drop InterfaceController_KEY_SIZE = e.payload := by
  have hk : (keyForSockaddr e.srcAddr).length = InterfaceController_KEY_SIZE := by
    apply keyForSockaddr_length
    rw [hs]
    simp [EFFECTIVE_KEY_SIZE, InterfaceController_KEY_SIZE, sizeof_sockaddr_in]
  refine ⟨keyForSockaddr e.srcAddr ++ e.payload, ?_, ?_, ?_, ?_⟩
  · unfold handleEvent
    simp [hLen, not_lt.mpr hrc]
  · rw [List.length_append, hk, hp]
    omega
  · rw [← hk, List.take_left]
  · rw [← hk, List.drop_left]

/-- Witness for C2 at a concrete datagram. -/
theorem handleEvent_delivers_witness :
    ((⟨3, List.range 16, 16, [7, 8, 9]⟩ : RecvEvent).srcAddrLen = 16 ∧
      (0 : Int) ≤ (⟨3, List.range 16, 16, [7, 8, 9]⟩ : RecvEvent).rc ∧
      (⟨3, List.range 16, 16, [7, 8, 9]⟩ : RecvEvent).payload.length =
        ((⟨3, List.range 16, 16, [7, 8, 9]⟩ : RecvEvent).rc).toNat ∧
      (⟨3, List.range 16, 16, [7, 8, 9]⟩ : RecvEvent).srcAddr.length =
        sizeof_sockaddr_in) ∧
    ∃ m, handleEvent 16 ⟨3, List.range 16, 16, [7, 8, 9]⟩ = some m ∧
      m.length = (3 : Int).toNat + InterfaceController_KEY_SIZE ∧
      m.take InterfaceController_KEY_SIZE =
        keyForSockaddr (List.range 16) ∧
      m.drop InterfaceController_KEY_SIZE = [7, 8, 9] :=
  ⟨⟨by decide, by decide, by decide, by decide⟩,
   handleEvent_delivers 16 ⟨3, List.range 16, 16, [7, 8, 9]⟩
     (by decide) (by decide) (by decide) (by decide)⟩

/-- C10: recvfrom is limited to maxPacketSize - InterfaceController_KEY_SIZE
bytes written at offset InterfaceController_KEY_SIZE, which fills the buffer
exactly to maxPacketSize, and every delivered message has length at most
maxPacketSize. -/
theorem handleEvent_length_bounded (maxPacketSize ctxAddrLen : Nat)
    (e : RecvEvent) (m : List Nat)
    (hM : InterfaceController_KEY_SIZE ≤ maxPacketSize)
    (hbuf : e.payload.length ≤ recvfromBufLen maxPacketSize)
    (hm : handleEvent ctxAddrLen e = some m) :
    InterfaceController_KEY_SIZE + recvfromBufLen maxPacketSize =
      maxPacketSize ∧
    m.length ≤ maxPacketSize := by
  constructor
  · simp only [recvfromBufLen]
    omega
  · have hkey : (keyForSockaddr e.srcAddr).length ≤
        InterfaceController_KEY_SIZE := by
      simp only [keyForSockaddr, List.length_append, List.length_take,
        List.length_replicate]
      have h2 : EFFECTIVE_KEY_SIZE ≤ InterfaceController_KEY_SIZE := by decide
      omega
    unfold handleEvent at hm
    by_cases h1 : e.srcAddrLen = ctxAddrLen
    · by_cases h2 : e.rc < 0
      · simp [h1, h2] at hm
      · simp [h1, h2] at hm
        rw [← hm]
        rw [List.length_append]
        simp only [recvfromBufLen] at hbuf
        omega
    · simp [h1] at hm

/-- Witness for C10 at a concrete accepted datagram with maxPacketSize 32. -/
theorem handleEvent_length_bounded_witness :
    (InterfaceController_KEY_SIZE ≤ 32 ∧
      (⟨2, List.range 16, 16, [5, 6]⟩ : RecvEvent).payload.length ≤
        recvfromBufLen 32 ∧
      handleEvent 16 ⟨2, List.range 16, 16, [5, 6]⟩ =
        some (keyForSockaddr (List.range 16) ++ [5, 6])) ∧
    InterfaceController_KEY_SIZE + recvfromBufLen 32 = 32 ∧
    (keyForSockaddr (List.range 16) ++ [5, 6]).length ≤ 32 :=
  ⟨⟨by decide, by decide, by decide⟩,
   handleEvent_length_bounded 32 16 ⟨2, List.range 16, 16, [5, 6]⟩
     (keyForSockaddr (List.range 16) ++ [5, 6])
     (by decide) (by decide) (by decide)⟩

/-- C3: sendMessage treats the first InterfaceController_KEY_SIZE bytes of
the message as the destination key, addresses the datagram to the sockaddr
sockaddrForKey rebuilds from that key, and passes exactly the remaining
message bytes (message->length after the shift) to sendto. -/
theorem sendMessage_frames (msg : List Nat) (sendtoNeg : Bool)
    (errno : Errno) (h : InterfaceController_KEY_SIZE ≤ msg.length) :
    (sendMessage msg sendtoNeg errno).dest =
      sockaddrForKey (msg.take InterfaceController_KEY_SIZE) ∧
    (sendMessage msg sendtoNeg errno).sentBytes =
      msg.drop InterfaceController_KEY_SIZE ∧
    (sendMessage msg sendtoNeg errno).sentLen =
      msg.length - InterfaceController_KEY_SIZE := by
  have h8 : (8 : Nat) ≤ msg.length := h
  have htk : (msg.take 8).length = 8 := by
    rw [List.length_take]
    omega
  refine ⟨?_, rfl, by simp [sendMessage]⟩
  have hK : InterfaceController_KEY_SIZE = 8 := rfl
  have hE : EFFECTIVE_KEY_SIZE = 8 := by decide
  have hSub : sizeof_sockaddr_in - EFFECTIVE_KEY_SIZE = 8 := by decide
  have hdest : (sendMessage msg sendtoNeg errno).dest =
      msg.take InterfaceController_KEY_SIZE ++
        (sockaddrForKey msg).drop InterfaceController_KEY_SIZE := rfl
  rw [hdest]
  simp only [sockaddrForKey, hE, hSub, hK]
  rw [List.drop_left' htk, List.take_take]
  norm_num

/-- Witness for C3 at a concrete 10-byte message. -/
theorem sendMessage_frames_witness :
    InterfaceController_KEY_SIZE ≤ (List.range 10).length ∧
    ((sendMessage (List.range 10) false Errno.other).dest =
      sockaddrForKey ((List.range 10).take InterfaceController_KEY_SIZE) ∧
    (sendMessage (List.range 10) false Errno.other).sentBytes =
      (List.range 10).drop InterfaceController_KEY_SIZE ∧
    (sendMessage (List.range 10) false Errno.other).sentLen =
      (List.range 10).length - InterfaceController_KEY_SIZE) :=
  ⟨by decide, sendMessage_frames (List.range 10) false Errno.other (by decide)⟩

/-- C5: when sendto fails, EMSGSIZE yields Error_OVERSIZE_MESSAGE, ENOBUFS
and EAGAIN yield Error_LINK_LIMIT_EXCEEDED, and every other errno — like a
successful send — yields return value 0. -/
theorem sendMessage_errno_mapping (msg : List Nat) :
    (sendMessage msg true Errno.EMSGSIZE).ret =
      SendRet.Error_OVERSIZE_MESSAGE ∧
    (sendMessage msg true Errno.ENOBUFS).ret =
      SendRet.Error_LINK_LIMIT_EXCEEDED ∧
    (sendMessage msg true Errno.EAGAIN).ret =
      SendRet.Error_LINK_LIMIT_EXCEEDED ∧
    (∀ e, e ≠ Errno.EMSGSIZE → e ≠ Errno.ENOBUFS → e ≠ Errno.EAGAIN →
      (sendMessage msg true e).ret = SendRet.zero) ∧
    (∀ e, (sendMessage msg false e).ret = SendRet.zero) := by
  refine ⟨rfl, rfl, rfl, ?_, fun e => rfl⟩
  intro e h1 h2 h3
  cases e
  · exact absurd rfl h1
  · exact absurd rfl h2
  · exact absurd rfl h3
  · rfl

/-- Witness for C5: an unrecognised errno yields 0. -/
theorem sendMessage_errno_mapping_witness :
    (Errno.other ≠ Errno.EMSGSIZE ∧ Errno.other ≠ Errno.ENOBUFS ∧
      Errno.other ≠ Errno.EAGAIN) ∧
    (sendMessage [1, 2, 3, 4, 5, 6, 7, 8, 9] true Errno.other).ret =
      SendRet.zero :=
  ⟨⟨by decide, by decide, by decide⟩,
   (sendMessage_errno_mapping [1, 2, 3, 4, 5, 6, 7, 8, 9]).2.2.2.1
     Errno.other (by decide) (by decide) (by decide)⟩

/-- C1: UDPInterface_beginConnection returns BAD_ADDRESS on parse failure and
ADDRESS_MISMATCH on a length mismatch, in both cases without invoking
insertEndpoint; otherwise it invokes insertEndpoint on keyForSockaddr of the
parsed address, returns 0 exactly when insertEndpoint succeeds, maps BAD_KEY
and OUT_OF_SPACE to the corresponding codes, and maps every other
insertEndpoint result to UNKNOWN_ERROR. -/
theorem beginConnection_cases (parsed : Option (List Nat × Nat))
    (ifaceAddrLen : Nat) (insertEndpoint : List Nat → InsertRet) :
    (parsed = none →
      UDPInterface_beginConnection parsed ifaceAddrLen insertEndpoint =
        (BeginConnRet.BAD_ADDRESS, none)) ∧
    (∀ addr len, parsed = some (addr, len) → len ≠ ifaceAddrLen →
      UDPInterface_beginConnection parsed ifaceAddrLen insertEndpoint =
        (BeginConnRet.ADDRESS_MISMATCH, none)) ∧
    (∀ addr len, parsed = some (addr, len) → len = ifaceAddrLen →
      (UDPInterface_beginConnection parsed ifaceAddrLen insertEndpoint).2 =
        some (keyForSockaddr addr) ∧
      ((UDPInterface_beginConnection parsed ifaceAddrLen insertEndpoint).1 =
          BeginConnRet.zero ↔
        insertEndpoint (keyForSockaddr addr) = InsertRet.success) ∧
      (insertEndpoint (keyForSockaddr addr) = InsertRet.BAD_KEY →
        (UDPInterface_beginConnection parsed ifaceAddrLen insertEndpoint).1 =
          BeginConnRet.BAD_KEY) ∧
      (insertEndpoint (keyForSockaddr addr) = InsertRet.OUT_OF_SPACE →
        (UDPInterface_beginConnection parsed ifaceAddrLen insertEndpoint).1 =
          BeginConnRet.OUT_OF_SPACE) ∧
      (insertEndpoint (keyForSockaddr addr) = InsertRet.other →
        (UDPInterface_beginConnection parsed ifaceAddrLen insertEndpoint).1 =
          BeginConnRet.UNKNOWN_ERROR)) := by
  refine ⟨?_, ?_, ?_⟩
  · intro h
    subst h
    rfl
  · intro addr len h hne
    subst h
    simp [UDPInterface_beginConnection, hne]
  · intro addr len h heq
    subst h
    subst heq
    cases hi : insertEndpoint (keyForSockaddr addr) <;>
      simp [UDPInterface_beginConnection, hi]

/-- Witness for C1: a parsed address of matching length with a BAD_KEY
insertEndpoint result. -/
theorem beginConnection_cases_witness :
    ((some ((List.range 16, 16) : List Nat × Nat) =
        some (List.range 16, 16) ∧ (16 : Nat) = 16) ∧
      (fun _ : List Nat => InsertRet.BAD_KEY) (keyForSockaddr (List.range 16)) =
        InsertRet.BAD_KEY) ∧
    (UDPInterface_beginConnection (some (List.range 16, 16)) 16
        (fun _ => InsertRet.BAD_KEY)).1 = BeginConnRet.BAD_KEY :=
  ⟨⟨⟨rfl, rfl⟩, rfl⟩,
   ((beginConnection_cases (some (List.range 16, 16)) 16
       (fun _ => InsertRet.BAD_KEY)).2.2 (List.range 16) 16 rfl
       rfl).2.2.1 rfl⟩

/-- C9: with a non-null bind address, UDPInterface_new raises
PROTOCOL_NOT_SUPPORTED whenever the parsed family is not AF_INET or the
parsed length differs from sizeof(struct sockaddr_in); consequently every
successfully constructed bound interface has an IPv4 address. -/
theorem new_requires_ipv4 (bindAddr : Option (Option (Nat × Nat)))
    (socketFail bindFail getsocknameFail eventFail : Bool) :
    (∀ fam len, bindAddr = some (some (fam, len)) →
      (fam ≠ AF_INET ∨ len ≠ sizeof_sockaddr_in) →
      UDPInterface_new bindAddr socketFail bindFail getsocknameFail
          eventFail =
        Except.error NewErr.PROTOCOL_NOT_SUPPORTED) ∧
    (∀ p fam len, bindAddr = some p →
      UDPInterface_new bindAddr socketFail bindFail getsocknameFail
          eventFail = Except.ok (fam, len) →
      fam = AF_INET ∧ len = sizeof_sockaddr_in) := by
  constructor
  · intro fam len h hbad
    subst h
    simp [UDPInterface_new, hbad]
  · intro p fam len h hok
    subst h
    cases p with
    | none => simp [UDPInterface_new] at hok
    | some fl =>
      obtain ⟨f, l⟩ := fl
      by_cases hg : f ≠ AF_INET ∨ l ≠ sizeof_sockaddr_in
      · simp [UDPInterface_new, hg] at hok
      · push_neg at hg
        obtain ⟨hf, hl⟩ := hg
        cases socketFail <;> cases bindFail <;> cases getsocknameFail <;>
          cases eventFail <;>
          simp [UDPInterface_new, hf, hl] at hok <;>
          simp [← hok.1, ← hok.2, hf, hl]

/-- Witness for C9: a parsed IPv6-family address (family 10) is rejected. -/
theorem new_requires_ipv4_witness :
    ((10 : Nat) ≠ AF_INET ∨ (28 : Nat) ≠ sizeof_sockaddr_in) ∧
    UDPInterface_new (some (some (10, 28))) false false false false =
      Except.error NewErr.PROTOCOL_NOT_SUPPORTED :=
  ⟨Or.inl (by decide),
   (new_requires_ipv4 (some (some (10, 28))) false false false false).1
     10 28 rfl (Or.inl (by decide))⟩

theorem lookup_none_not_mem (reg : Registry) (k : Nat)
    (h : reg.lookup k = none) : k ∉ reg.map Prod.fst := by
  induction reg with
  | nil => simp
  | cons p t ih =>
    obtain ⟨k1, v1⟩ := p
    simp only [List.lookup] at h
    by_cases hk : k = k1
    · subst hk
      simp at h
    · have hb : (k == k1) = false := beq_false_of_ne hk
      rw [hb] at h
      simp only [List.map_cons, List.mem_cons]
      push_neg
      exact ⟨hk, ih h⟩

theorem filter_preserves_oneSession (reg : Registry) (f : Nat × Session → Bool)
    (h : oneSessionPerKey reg) : oneSessionPerKey (reg.filter f) := by
  unfold oneSessionPerKey at *
  exact h.sublist (List.Sublist.map Prod.fst (List.filter_sublist reg))

/-- C6: the registry holds at most one session per peer key, and this
invariant is preserved by lookupOrCreate, removeAndWipe and sweep (and holds
for the empty registry), so it is maintained by the registry operations
alone. -/
theorem registry_exactly_one_session (reg : Registry) (k now threshold : Nat)
    (h : oneSessionPerKey reg) :
    oneSessionPerKey ([] : Registry) ∧
    oneSessionPerKey (lookupOrCreate reg k).2 ∧
    oneSessionPerKey (removeAndWipe reg k) ∧
    oneSessionPerKey (sweep reg now threshold) := by
  refine ⟨by simp [oneSessionPerKey], ?_, ?_, ?_⟩
  · unfold lookupOrCreate
    cases hl : reg.lookup k with
    | some s => exact h
    | none =>
      simp only [oneSessionPerKey, List.map_cons]
      exact List.nodup_cons.mpr ⟨lookup_none_not_mem reg k hl, h⟩
  · exact filter_preserves_oneSession reg _ h
  · exact filter_preserves_oneSession reg _ h

/-- Witness for C6 on a one-entry registry. -/
theorem registry_exactly_one_session_witness :
    oneSessionPerKey [((1 : Nat), (⟨0, 0⟩ : Session))] ∧
    (oneSessionPerKey ([] : Registry) ∧
      oneSessionPerKey (lookupOrCreate [((1 : Nat), (⟨0, 0⟩ : Session))] 2).2 ∧
      oneSessionPerKey (removeAndWipe [((1 : Nat), (⟨0, 0⟩ : Session))] 2) ∧
      oneSessionPerKey (sweep [((1 : Nat), (⟨0, 0⟩ : Session))] 5 3)) :=
  ⟨by simp [oneSessionPerKey],
   registry_exactly_one_session [((1 : Nat), (⟨0, 0⟩ : Session))] 2 5 3
     (by simp [oneSessionPerKey])⟩

theorem rwWF_init : rwWF rwInit := by
  intro m hm
  simp [rwInit] at hm

theorem rwCheck_top_mono (W : Nat) (w : ReplayWindow) (n : Nat) :
    w.top ≤ ((rwCheck W w n).2).top := by
  unfold rwCheck
  by_cases h1 : w.top < n
  · rw [if_pos h1]
    exact Nat.le_of_lt h1
  · rw [if_neg h1]
    by_cases h2 : w.top < n + W
    · rw [if_pos h2]
      by_cases h3 : n ∈ w.seen
      · rw [if_pos h3]
      · rw [if_neg h3]
    · rw [if_neg h2]

theorem rwCheck_wf (W : Nat) (w : ReplayWindow) (n : Nat) (hwf : rwWF w) :
    rwWF ((rwCheck W w n).2) := by
  unfold rwCheck
  by_cases h1 : w.top < n
  · rw [if_pos h1]
    intro m hm
    rcases List.mem_cons.mp hm with rfl | hm2
    · exact Nat.le_refl m
    · exact Nat.le_of_lt (Nat.lt_of_le_of_lt
        (hwf m (List.mem_filter.mp hm2).1) h1)
  · rw [if_neg h1]
    by_cases h2 : w.top < n + W
    · rw [if_pos h2]
      by_cases h3 : n ∈ w.seen
      · rw [if_pos h3]
        exact hwf
      · rw [if_neg h3]
        intro m hm
        rcases List.mem_cons.mp hm with rfl | hm2
        · exact Nat.le_of_not_lt h1
        · exact hwf m hm2
    · rw [if_neg h2]
      exact hwf

theorem rwCheck_dead_step (W : Nat) (w : ReplayWindow) (n m : Nat)
    (hd : rwDead W w n) : rwDead W ((rwCheck W w m).2) n := by
  rcases hd with hseen | hold
  · unfold rwCheck
    by_cases h1 : w.top < m
    · rw [if_pos h1]
      by_cases h2 : m < n + W
      · left
        exact List.mem_cons.mpr (Or.inr
          (List.mem_filter.mpr ⟨hseen, by simp [h2]⟩))
      · right
        show n + W ≤ m
        omega
    · rw [if_neg h1]
      by_cases h2 : w.top < m + W
      · rw [if_pos h2]
        by_cases h3 : m ∈ w.seen
        · rw [if_pos h3]
          exact Or.inl hseen
        · rw [if_neg h3]
          exact Or.inl (List.mem_cons.mpr (Or.inr hseen))
      · rw [if_neg h2]
        exact Or.inl hseen
  · right
    exact Nat.le_trans hold (rwCheck_top_mono W w m)

theorem rwDead_reject (W : Nat) (w : ReplayWindow) (n : Nat)
    (hwf : rwWF w) (hd : rwDead W w n) : (rwCheck W w n).1 = false := by
  unfold rwCheck
  rcases hd with hseen | hold
  · have hle : n ≤ w.top := hwf n hseen
    rw [if_neg (by omega : ¬ w.top < n)]
    by_cases h2 : w.top < n + W
    · rw [if_pos h2, if_pos hseen]
    · rw [if_neg h2]
  · rw [if_neg (by omega : ¬ w.top < n), if_neg (by omega : ¬ w.top < n + W)]

theorem rwCheck_accept_dead (W : Nat) (w : ReplayWindow) (n : Nat)
    (ha : (rwCheck W w n).1 = true) : rwDead W ((rwCheck W w n).2) n := by
  unfold rwCheck at ha ⊢
  by_cases h1 : w.top < n
  · rw [if_pos h1]
    exact Or.inl (List.mem_cons_self _ _)
  · rw [if_neg h1] at ha ⊢
    by_cases h2 : w.top < n + W
    · rw [if_pos h2] at ha ⊢
      by_cases h3 : n ∈ w.seen
      · rw [if_pos h3] at ha
        exact absurd ha (by simp)
      · rw [if_neg h3]
        exact Or.inl (List.mem_cons_self _ _)
    · rw [if_neg h2] at ha
      exact absurd ha (by simp)

theorem rwDead_not_mem_trace (W : Nat) (w : ReplayWindow) (n : Nat)
    (ns : List Nat) (hwf : rwWF w) (hd : rwDead W w n) :
    n ∉ rwTrace W w ns := by
  induction ns generalizing w with
  | nil => simp [rwTrace]
  | cons m ms ih =>
    rw [rwTrace]
    by_cases hr : (rwCheck W w m).1 = true
    · rw [if_pos hr]
      intro hmem
      rcases List.mem_cons.mp hmem with rfl | hmem2
      · rw [rwDead_reject W w n hwf hd] at hr
        exact Bool.false_ne_true hr
      · exact ih (rwCheck W w m).2 (rwCheck_wf W w m hwf)
          (rwCheck_dead_step W w n m hd) hmem2
    · rw [if_neg hr]
      exact ih (rwCheck W w m).2 (rwCheck_wf W w m hwf)
        (rwCheck_dead_step W w n m hd)

theorem rwTrace_nodup (W : Nat) (w : ReplayWindow) (ns : List Nat)
    (hwf : rwWF w) : (rwTrace W w ns).Nodup := by
  induction ns generalizing w with
  | nil => simp [rwTrace]
  | cons m ms ih =>
    rw [rwTrace]
    by_cases hr : (rwCheck W w m).1 = true
    · rw [if_pos hr]
      exact List.nodup_cons.mpr
        ⟨rwDead_not_mem_trace W (rwCheck W w m).2 m ms
           (rwCheck_wf W w m hwf) (rwCheck_accept_dead W w m hr),
         ih (rwCheck W w m).2 (rwCheck_wf W w m hwf)⟩
    · rw [if_neg hr]
      exact ih (rwCheck W w m).2 (rwCheck_wf W w m hwf)

theorem rwRun_wf (W : Nat) (ns : List Nat) (w : ReplayWindow)
    (hwf : rwWF w) : rwWF (rwRun W w ns) := by
  induction ns generalizing w with
  | nil => exact hwf
  | cons m ms ih => exact ih (rwCheck W w m).2 (rwCheck_wf W w m hwf)

/-- C7: over every sequence of presented nonces, each nonce is accepted at
most once, and after any prior history a nonce whose bit is set, or one that
has fallen below the window's lower bound (n + W ≤ top, i.e.
n < top - W + 1), is rejected. -/
theorem replay_accepts_nonce_at_most_once (W : Nat) :
    (∀ ns : List Nat, (rwTrace W rwInit ns).Nodup) ∧
    (∀ (ns : List Nat) (n : Nat),
      (n ∈ (rwRun W rwInit ns).seen ∨ n + W ≤ (rwRun W rwInit ns).top) →
      (rwCheck W (rwRun W rwInit ns) n).1 = false) := by
  constructor
  · intro ns
    exact rwTrace_nodup W rwInit ns rwWF_init
  · intro ns n hd
    exact rwDead_reject W (rwRun W rwInit ns) n (rwRun_wf W ns rwInit rwWF_init) hd

/-- Witness for C7: with window size 4, replaying nonce 1 after history
[1] is rejected, and the trace of [1, 3, 2, 3] has no duplicate accept. -/
theorem replay_accepts_nonce_at_most_once_witness :
    (rwTrace 4 rwInit [1, 3, 2, 3]).Nodup ∧
    ((1 ∈ (rwRun 4 rwInit [1]).seen ∨ 1 + 4 ≤ (rwRun 4 rwInit [1]).top) ∧
      (rwCheck 4 (rwRun 4 rwInit [1]) 1).1 = false) :=
  ⟨(replay_accepts_nonce_at_most_once 4).1 [1, 3, 2, 3],
   Or.inl (by decide),
   (replay_accepts_nonce_at_most_once 4).2 [1] 1 (Or.inl (by decide))⟩

end Cjdns
